import Mathlib

/-!
Shallow embedding of the BaZi chart form component (src/components/BaziForm.tsx).

The component keeps a single mutable record (`UserInput`) of user-entered and
derived fields, derives the four pillars and the first decade-luck period
through the external `lunar-javascript` calendar bridge, recomputes a
forward/backward luck-direction display value, and guards submission.

The calendar bridge is an external collaborator: it is modelled abstractly as
a function from the four birth-moment field strings and a gender code to
either an error message (a thrown exception) or the bridge data (four pillar
tokens plus the ordered decade-luck sequence).  All bridge calls in the
source happen before the single `setFormData` state merge, so one `Except`
value faithfully captures the try-block outcome.
-/

/-- Gender enumeration from src/types (referenced as `Gender.MALE` /
`Gender.FEMALE` by the component). -/
inductive Gender where
  | MALE
  | FEMALE
deriving DecidableEq, Repr

/-- The `UserInput` record held in the component state (`formData`,
BaziForm.tsx lines 12-25): every field except `gender` is a string. -/
structure UserInput where
  name : String
  gender : Gender
  birthYear : String
  birthMonth : String
  birthDay : String
  birthHour : String
  yearPillar : String
  monthPillar : String
  dayPillar : String
  hourPillar : String
  startAge : String
  firstDaYun : String
deriving DecidableEq, Repr

/-- Initial component state (BaziForm.tsx lines 12-25): gender preset to
male, every other field the empty string. -/
def initialFormData : UserInput :=
  { name := ""
    gender := Gender.MALE
    birthYear := ""
    birthMonth := ""
    birthDay := ""
    birthHour := ""
    yearPillar := ""
    monthPillar := ""
    dayPillar := ""
    hourPillar := ""
    startAge := ""
    firstDaYun := "" }

/-- The four pillar tokens returned by the bridge
(`eightChar.getYear/getMonth/getDay/getTime`, lines 59-62). -/
structure FourPillars where
  year : String
  month : String
  day : String
  hour : String
deriving DecidableEq, Repr

/-- One entry of the bridge decade-luck sequence (`yun.getDaYun()`):
`getGanZhi()` and `getStartAge()` (lines 74-76). -/
structure DaYunEntry where
  ganZhi : String
  startAge : Nat
deriving DecidableEq, Repr

/-- The user-visible notifications (`alert(...)` calls) of the component. -/
inductive AlertMsg where
  | missingFields
  | calcFailed (msg : String)
  | daYunAnomaly
deriving DecidableEq, Repr

/-- Rendered text of each notification (lines 37, 98, 103). -/
def renderAlert : AlertMsg → String
  | AlertMsg.missingFields => "请填写完整的出生年月日时（阳历）"
  | AlertMsg.calcFailed msg => "自动排盘失败: " ++ msg ++ "。请检查控制台了解详情。"
  | AlertMsg.daYunAnomaly => "八字排盘成功，但大运计算异常，请手动检查"

/-- Gender code handed to the bridge decade enumeration
(`gender === Gender.MALE ? 1 : 0`, line 66). -/
def genderNum : Gender → Nat
  | Gender.MALE => 1
  | Gender.FEMALE => 0

/-- Data a successful bridge interaction yields: the four pillar tokens and
the ordered decade-luck sequence. -/
abbrev BridgeData := FourPillars × List DaYunEntry

/-- Abstract calendar bridge: the four birth-moment field strings and the
gender code determine either a thrown error message or the bridge data. -/
abbrev BridgeFn := String → String → String → String → Nat → Except String BridgeData

/-- JavaScript emptiness test used by the local validation (line 36):
`!s` (and `s === ''`) holds for a string exactly when it is empty. -/
def missingBirthField (r : UserInput) : Prop :=
  r.birthYear = "" ∨ r.birthMonth = "" ∨ r.birthDay = "" ∨ r.birthHour = ""

instance (r : UserInput) : Decidable (missingBirthField r) := by
  unfold missingBirthField
  infer_instance

/-- Decade entry applied to the record: index 1 of the sequence when its
length exceeds 1 (lines 73-86), otherwise the fallback pair
`("1", "")` (lines 87-98). -/
def selectedDecade (arr : List DaYunEntry) : String × String :=
  if h : 1 < arr.length then
    (toString (arr.get ⟨1, h⟩).startAge, (arr.get ⟨1, h⟩).ganZhi)
  else
    ("1", "")

/-- Body of the try block of `calculateBaZi` (lines 41-104), given the
outcome of the bridge interaction: a thrown error is caught and reported
with the record untouched; otherwise the four pillars and the selected (or
fallback) decade entry are merged into the record in one update, with the
anomaly notification when the sequence is too short. -/
def runDerivation (prev : UserInput) (bridgeResult : Except String BridgeData) :
    UserInput × Option AlertMsg :=
  match bridgeResult with
  | Except.error msg => (prev, some (AlertMsg.calcFailed msg))
  | Except.ok (pillars, daYunArr) =>
    if h : 1 < daYunArr.length then
      let firstDaYunObj := daYunArr.get ⟨1, h⟩
      ({ prev with
          yearPillar := pillars.year
          monthPillar := pillars.month
          dayPillar := pillars.day
          hourPillar := pillars.hour
          startAge := toString firstDaYunObj.startAge
          firstDaYun := firstDaYunObj.ganZhi }, none)
    else
      ({ prev with
          yearPillar := pillars.year
          monthPillar := pillars.month
          dayPillar := pillars.day
          hourPillar := pillars.hour
          startAge := "1"
          firstDaYun := "" }, some AlertMsg.daYunAnomaly)

/-- The `calculateBaZi` handler (lines 32-105): local emptiness validation
first (line 36) — on failure notify and return without touching the bridge —
then the bridge interaction at the gender code `genderNum gender`, handled
by `runDerivation`. -/
def calculateBaZi (bridge : BridgeFn) (prev : UserInput) :
    UserInput × Option AlertMsg :=
  if missingBirthField prev then
    (prev, some AlertMsg.missingFields)
  else
    runDerivation prev
      (bridge prev.birthYear prev.birthMonth prev.birthDay prev.birthHour
        (genderNum prev.gender))

/-- Outcome of the submit handler: either the callback `onSubmit` receives a
record snapshot, or a blocking notification is shown. -/
inductive SubmitOutcome where
  | submitted (data : UserInput)
  | blocked (msg : String)
deriving DecidableEq, Repr

/-- The `handleSubmit` handler (lines 107-114): blocked with a notification
when `yearPillar` or `firstDaYun` is empty, otherwise the current record is
handed to `onSubmit`. -/
def handleSubmit (formData : UserInput) : SubmitOutcome :=
  if formData.yearPillar = "" ∨ formData.firstDaYun = "" then
    SubmitOutcome.blocked "请先进行自动排盘或手动填写四柱信息"
  else
    SubmitOutcome.submitted formData

/-- The five Yin stems (line 121). -/
def yinStems : List Char := ['乙', '丁', '己', '辛', '癸']

/-- JavaScript `s.trim()`: strip whitespace from both ends. -/
def jsTrim (s : String) : String :=
  ⟨((s.data.dropWhile Char.isWhitespace).reverse.dropWhile Char.isWhitespace).reverse⟩

/-- First character of a string after trimming, as the source computes the
stem by `yearPillar.trim().charAt(0)` (line 120); `none` models the empty
string `charAt` yields on an all-whitespace input. -/
def stemChar (s : String) : Option Char :=
  (jsTrim s).data.head?

/-- The `daYunDirectionInfo` memo (lines 117-134): placeholder text while
`yearPillar` is empty; otherwise the stem is the first character of the
trimmed year pillar, Yang unless it is one of the five Yin stems, and the
direction string follows the male/yang, female/yin rule. -/
def daYunDirectionInfo (yearPillar : String) (gender : Gender) : String :=
  if yearPillar = "" then "等待排盘..."
  else
    let isYangYear : Bool :=
      match stemChar yearPillar with
      | some c => ! (yinStems.contains c)
      | none => true
    let isForward : Bool :=
      match gender with
      | Gender.MALE => isYangYear
      | Gender.FEMALE => ! isYangYear
    if isForward then "顺行 (阳男/阴女)" else "逆行 (阴男/阳女)"

/-- Abstract luck-direction value of the specification. -/
inductive LuckDirection where
  | Forward
  | Backward
  | Unknown
deriving DecidableEq, Repr

/-- Rendering of each direction value used by the memo: `Unknown` is the
awaiting-computation placeholder. -/
def renderDirection : LuckDirection → String
  | LuckDirection.Unknown => "等待排盘..."
  | LuckDirection.Forward => "顺行 (阳男/阴女)"
  | LuckDirection.Backward => "逆行 (阴男/阳女)"

/-- Luck-direction resolver exactly as the specification words it, for
comparison with the source function: `Unknown` on the empty placeholder;
otherwise the stem is the first character of `yearPillar` itself (no
trimming), Yin exactly when it belongs to the five-member Yin set, and
`Forward` iff (male and Yang) or (female and Yin). -/
def claimedLuckDirection (yearPillar : String) (gender : Gender) : LuckDirection :=
  if yearPillar = "" then LuckDirection.Unknown
  else
    let isYin : Bool :=
      match yearPillar.data.head? with
      | some c => yinStems.contains c
      | none => false
    match gender with
    | Gender.MALE =>
        if ! isYin then LuckDirection.Forward else LuckDirection.Backward
    | Gender.FEMALE =>
        if isYin then LuckDirection.Forward else LuckDirection.Backward

/-- Luck-direction resolver as the specification reads after the one
correction the source forces: the stem is the first character of the
trimmed `yearPillar` (the source computes `yearPillar.trim().charAt(0)`). -/
def trimmedLuckDirection (yearPillar : String) (gender : Gender) : LuckDirection :=
  if yearPillar = "" then LuckDirection.Unknown
  else
    let isYin : Bool :=
      match stemChar yearPillar with
      | some c => yinStems.contains c
      | none => false
    match gender with
    | Gender.MALE =>
        if ! isYin then LuckDirection.Forward else LuckDirection.Backward
    | Gender.FEMALE =>
        if isYin then LuckDirection.Forward else LuckDirection.Backward

/-! Concrete fixtures used by witnesses. -/

/-- Sample bridge output entries: a child-limit entry and a first formal
decade entry. -/
def entA : DaYunEntry := { ganZhi := "丙子", startAge := 3 }

/-- Second sample decade entry. -/
def entB : DaYunEntry := { ganZhi := "庚午", startAge := 9 }

/-- Sample four-pillar bridge output. -/
def pillarsEx : FourPillars :=
  { year := "庚午", month := "辛巳", day := "丙子", hour := "甲午" }

/-- A record whose four birth-moment fields are filled in. -/
def sampleRecord : UserInput :=
  { initialFormData with
      birthYear := "1990", birthMonth := "5", birthDay := "15", birthHour := "14" }

/-- A bridge that throws on every input. -/
def failingBridge : BridgeFn := fun _ _ _ _ _ => Except.error "test failure"

/-- A bridge that succeeds with the sample data on every input. -/
def okBridge : BridgeFn := fun _ _ _ _ _ => Except.ok (pillarsEx, [entA, entB])

/-! Theorems. -/

/-- C1 (counterexample): the resolver is not the claimed function of the
untrimmed first character — on a year pillar with a leading space and a Yin
stem, the source trims before classifying and answers Backward for a male,
while the claimed function classifies the space character as Yang and
answers Forward. -/
theorem luck_direction_untrimmed_cex :
    daYunDirectionInfo " 乙丑" Gender.MALE
      ≠ renderDirection (claimedLuckDirection " 乙丑" Gender.MALE) := by
  decide

/-- C1 (amended): the `daYunDirectionInfo` memo equals the specified
resolver once the stem is taken as the first character of the trimmed
year pillar: Unknown on the empty placeholder, Yin exactly on the
five-member set, Forward iff male-and-Yang or female-and-Yin. -/
theorem luck_direction_resolver_trimmed :
    ∀ (yearPillar : String) (gender : Gender),
      daYunDirectionInfo yearPillar gender
        = renderDirection (trimmedLuckDirection yearPillar gender) := by
  intro yp g
  unfold daYunDirectionInfo trimmedLuckDirection
  by_cases h : yp = ""
  · simp [h, renderDirection]
  · cases hc : stemChar yp with
    | none => cases g <;> simp [h, hc, renderDirection]
    | some c =>
        cases g <;> by_cases hm : c ∈ yinStems <;>
          simp [h, hc, hm, renderDirection]

/-- C2: `handleSubmit` hands the current record snapshot to the submission
callback exactly when both `yearPillar` and `firstDaYun` are non-empty;
whenever either is empty it blocks with the user notification instead — for
every value of the other fields, derived or manually entered. -/
theorem submit_guard (r : UserInput) :
    (handleSubmit r = SubmitOutcome.submitted r ↔
      r.yearPillar ≠ "" ∧ r.firstDaYun ≠ "")
    ∧ (∀ d : UserInput, handleSubmit r = SubmitOutcome.submitted d → d = r)
    ∧ ((r.yearPillar = "" ∨ r.firstDaYun = "") →
        handleSubmit r = SubmitOutcome.blocked "请先进行自动排盘或手动填写四柱信息") := by
  unfold handleSubmit
  by_cases h : r.yearPillar = "" ∨ r.firstDaYun = ""
  · rw [if_pos h]
    refine ⟨?_, ?_, fun _ => rfl⟩
    · constructor
      · intro hcontra
        exact absurd hcontra (by simp)
      · rintro ⟨h1, h2⟩
        rcases h with h | h
        · exact absurd h h1
        · exact absurd h h2
    · intro d hd
      exact absurd hd (by simp)
  · rw [if_neg h]
    push_neg at h
    refine ⟨⟨fun _ => h, fun _ => rfl⟩, ?_, ?_⟩
    · intro d hd
      injection hd with hh
      exact hh.symm
    · intro hcontra
      rcases hcontra with hc | hc
      · exact absurd hc h.1
      · exact absurd hc h.2

/-- C2 witness: on the initial record (empty year pillar) submission is
blocked. -/
theorem submit_guard_witness :
    handleSubmit initialFormData = SubmitOutcome.blocked "请先进行自动排盘或手动填写四柱信息" :=
  (submit_guard initialFormData).2.2 (Or.inl rfl)

/-- C3: when the bridge decade sequence is longer than 1, the assembler
takes `startAge` and `ganZhi` from the entry at index 1 and reports no
anomaly; the child-limit entry at index 0 is not the one stored. -/
theorem first_decade_from_index_one (prev : UserInput) (pillars : FourPillars)
    (arr : List DaYunEntry) (h : 1 < arr.length) :
    (runDerivation prev (Except.ok (pillars, arr))).1.startAge
        = toString (arr.get ⟨1, h⟩).startAge
    ∧ (runDerivation prev (Except.ok (pillars, arr))).1.firstDaYun
        = (arr.get ⟨1, h⟩).ganZhi
    ∧ (runDerivation prev (Except.ok (pillars, arr))).2 = none := by
  simp [runDerivation, h]

/-- C3 witness: with a two-entry sequence, the stored decade is the second
entry, not the child-limit entry. -/
theorem first_decade_from_index_one_witness :
    (runDerivation initialFormData (Except.ok (pillarsEx, [entA, entB]))).1.startAge
        = toString entB.startAge
    ∧ (runDerivation initialFormData (Except.ok (pillarsEx, [entA, entB]))).1.firstDaYun
        = entB.ganZhi
    ∧ (runDerivation initialFormData (Except.ok (pillarsEx, [entA, entB]))).2 = none :=
  first_decade_from_index_one initialFormData pillarsEx [entA, entB] (by decide)

/-- C4: when the bridge decade sequence has length at most 1, the assembler
still applies the four pillar tokens, stores the fallback values
`startAge = "1"` and `firstDaYun = ""`, and emits the non-fatal anomaly
notification. -/
theorem decade_anomaly_fallback (prev : UserInput) (pillars : FourPillars)
    (arr : List DaYunEntry) (h : arr.length ≤ 1) :
    runDerivation prev (Except.ok (pillars, arr))
      = ({ prev with
            yearPillar := pillars.year
            monthPillar := pillars.month
            dayPillar := pillars.day
            hourPillar := pillars.hour
            startAge := "1"
            firstDaYun := "" }, some AlertMsg.daYunAnomaly) := by
  have h2 : ¬ 1 < arr.length := by omega
  simp [runDerivation, h2]

/-- C4 witness: an empty decade sequence yields the fallback decade values
with the four pillars applied and the anomaly notification. -/
theorem decade_anomaly_fallback_witness :
    runDerivation sampleRecord (Except.ok (pillarsEx, ([] : List DaYunEntry)))
      = ({ sampleRecord with
            yearPillar := "庚午"
            monthPillar := "辛巳"
            dayPillar := "丙子"
            hourPillar := "甲午"
            startAge := "1"
            firstDaYun := "" }, some AlertMsg.daYunAnomaly) :=
  decade_anomaly_fallback sampleRecord pillarsEx [] (by decide)

/-- C5: when the bridge call throws, the handler reports the failure with
the underlying message and leaves every field of the record exactly as it
was; the rendered notification embeds that message. -/
theorem bridge_failure_atomic (prev : UserInput) (bridge : BridgeFn) (msg : String)
    (hb : bridge prev.birthYear prev.birthMonth prev.birthDay prev.birthHour
            (genderNum prev.gender) = Except.error msg) :
    (calculateBaZi bridge prev).1 = prev
    ∧ (¬ missingBirthField prev →
        calculateBaZi bridge prev = (prev, some (AlertMsg.calcFailed msg)))
    ∧ renderAlert (AlertMsg.calcFailed msg)
        = "自动排盘失败: " ++ msg ++ "。请检查控制台了解详情。" := by
  refine ⟨?_, ?_, rfl⟩
  · unfold calculateBaZi
    by_cases hm : missingBirthField prev
    · simp [hm]
    · simp [hm, hb, runDerivation]
  · intro hm
    simp [calculateBaZi, hm, hb, runDerivation]

/-- C5 witness: a throwing bridge leaves the sample record unchanged and
reports the failure. -/
theorem bridge_failure_atomic_witness :
    (calculateBaZi failingBridge sampleRecord).1 = sampleRecord
    ∧ calculateBaZi failingBridge sampleRecord
        = (sampleRecord, some (AlertMsg.calcFailed "test failure")) := by
  have h := bridge_failure_atomic sampleRecord failingBridge "test failure" rfl
  exact ⟨h.1, h.2.1 (by decide)⟩

/-- C6: a successful derivation is one atomic merge: the record equals the
previous record with exactly the four pillar fields and the two decade
fields replaced; name, gender and the four birth-moment fields are
untouched, and the six derived fields are set together in both the normal
and the fallback branch. -/
theorem derivation_single_merge (prev : UserInput) (pillars : FourPillars)
    (arr : List DaYunEntry) :
    (runDerivation prev (Except.ok (pillars, arr))).1
      = { prev with
          yearPillar := pillars.year
          monthPillar := pillars.month
          dayPillar := pillars.day
          hourPillar := pillars.hour
          startAge := (selectedDecade arr).1
          firstDaYun := (selectedDecade arr).2 }
    ∧ (runDerivation prev (Except.ok (pillars, arr))).1.name = prev.name
    ∧ (runDerivation prev (Except.ok (pillars, arr))).1.gender = prev.gender
    ∧ (runDerivation prev (Except.ok (pillars, arr))).1.birthYear = prev.birthYear
    ∧ (runDerivation prev (Except.ok (pillars, arr))).1.birthMonth = prev.birthMonth
    ∧ (runDerivation prev (Except.ok (pillars, arr))).1.birthDay = prev.birthDay
    ∧ (runDerivation prev (Except.ok (pillars, arr))).1.birthHour = prev.birthHour := by
  by_cases h : 1 < arr.length <;>
    simp [runDerivation, selectedDecade, h]

/-- C7: the derivation fails with the missing-field notification exactly
when one of the four birth-moment fields is empty; in that case the record
is unchanged and the outcome does not depend on the bridge at all — no
bridge call is made. -/
theorem missing_field_guard (prev : UserInput) (bridge altBridge : BridgeFn) :
    ((calculateBaZi bridge prev).2 = some AlertMsg.missingFields ↔
      missingBirthField prev)
    ∧ (missingBirthField prev →
        calculateBaZi bridge prev = (prev, some AlertMsg.missingFields)
        ∧ calculateBaZi bridge prev = calculateBaZi altBridge prev) := by
  by_cases hm : missingBirthField prev
  · refine ⟨?_, ?_⟩ <;> simp [calculateBaZi, hm]
  · refine ⟨?_, fun h => absurd h hm⟩
    simp only [calculateBaZi, if_neg hm]
    constructor
    · intro hcontra
      exact absurd hcontra (by
        generalize (bridge prev.birthYear prev.birthMonth prev.birthDay prev.birthHour
          (genderNum prev.gender)) = x
        unfold runDerivation
        match x with
        | Except.error msg => simp
        | Except.ok (p, a) =>
          by_cases hl : 1 < a.length <;> simp [hl])
    · intro hcontra
      exact absurd hcontra hm

/-- C7 witness: on the initial record (all birth fields empty) the guard
fires, the record is unchanged, and two different bridges give the same
outcome. -/
theorem missing_field_guard_witness :
    calculateBaZi okBridge initialFormData
      = (initialFormData, some AlertMsg.missingFields)
    ∧ calculateBaZi okBridge initialFormData
      = calculateBaZi failingBridge initialFormData :=
  (missing_field_guard initialFormData okBridge failingBridge).2 (Or.inl rfl)

/-- C8: the gender code handed to the bridge decade enumeration is exactly
1 for a male and 0 for a female, and every derivation that passes validation
invokes the bridge at precisely that code. -/
theorem gender_code_convention :
    genderNum Gender.MALE = 1 ∧ genderNum Gender.FEMALE = 0
    ∧ ∀ (prev : UserInput) (bridge : BridgeFn), ¬ missingBirthField prev →
        calculateBaZi bridge prev
          = runDerivation prev
              (bridge prev.birthYear prev.birthMonth prev.birthDay prev.birthHour
                (genderNum prev.gender)) := by
  refine ⟨rfl, rfl, ?_⟩
  intro prev bridge hm
  simp [calculateBaZi, hm]

/-- C8 witness: on the sample record the derivation equals the bridge
outcome taken at the gender code of its gender. -/
theorem gender_code_convention_witness :
    calculateBaZi okBridge sampleRecord
      = runDerivation sampleRecord
          (okBridge sampleRecord.birthYear sampleRecord.birthMonth
            sampleRecord.birthDay sampleRecord.birthHour
            (genderNum sampleRecord.gender)) :=
  gender_code_convention.2.2 sampleRecord okBridge (by decide)

/-- Disabled attribute of the derivation trigger (the 自动排盘 button,
lines 194-200): its markup carries no disabled attribute, so it stays
enabled whatever the loading flag. -/
def calculateButtonDisabled : Bool → Bool := fun _ => false

/-- Disabled attribute of the submit button (line 362): bound to the
`isLoading` prop. -/
def submitButtonDisabled : Bool → Bool := fun isLoading => isLoading

/-- C9 (counterexample): with the loading flag raised, the derivation
trigger is not disabled — a new derivation can still be started, so the
loading flag does not prevent overlapping derivations. -/
theorem loading_gates_derivation_cex :
    ¬ (calculateButtonDisabled true = true) := by
  decide

/-- C9 (amended): the loading flag disables exactly the submit control —
re-submission is blocked while it is raised — and never the derivation
trigger, which stays enabled for every value of the flag. -/
theorem loading_gates_submission_only (isLoading : Bool) :
    submitButtonDisabled isLoading = isLoading
    ∧ calculateButtonDisabled isLoading = false :=
  ⟨rfl, rfl⟩

/-- C10: the session starts with gender preset to male and every other
field empty; consequently the luck direction reads as awaiting computation
and submission is blocked. -/
theorem initial_record_spec :
    initialFormData.gender = Gender.MALE
    ∧ initialFormData.name = ""
    ∧ initialFormData.birthYear = ""
    ∧ initialFormData.birthMonth = ""
    ∧ initialFormData.birthDay = ""
    ∧ initialFormData.birthHour = ""
    ∧ initialFormData.yearPillar = ""
    ∧ initialFormData.monthPillar = ""
    ∧ initialFormData.dayPillar = ""
    ∧ initialFormData.hourPillar = ""
    ∧ initialFormData.startAge = ""
    ∧ initialFormData.firstDaYun = ""
    ∧ daYunDirectionInfo initialFormData.yearPillar initialFormData.gender
        = renderDirection LuckDirection.Unknown
    ∧ handleSubmit initialFormData
        = SubmitOutcome.blocked "请先进行自动排盘或手动填写四柱信息" := by
  decide
